import Mathlib

/-!
# Verification of the tritongrader execution and verdict engine

A shallow embedding of the tritongrader autograder core: the privilege-drop
launcher (`wrappers/harness.py`), the test-case variants
(`src/tritongrader/test_case/*.py`), the orchestrator gating loop
(`src/tritongrader/autograder.py`) and the score aggregation
(`src/tritongrader/formatter.py`).

Python's mutable objects are embedded as explicit state records, exceptions as
an `Except`-style outcome or an explicit exception value threaded through each
handler, floats used for point values as rationals, and the operating system
(filesystem contents, the behavior of the spawned child process, the valgrind
report parse) as explicit parameters.
-/

namespace Tritongrader

/-- Substring test: does `needle` occur as a leading run of `hay`?
(Embeds Python's `str.__contains__` building block.) -/
def leadsList : List Char → List Char → Bool
  | [], _ => true
  | _ :: _, [] => false
  | a :: as, b :: bs => a == b && leadsList as bs

/-- Does `needle` occur anywhere inside `hay`? Embeds Python's
`needle in hay` test on strings. -/
def containsList (needle : List Char) : List Char → Bool
  | [] => leadsList needle []
  | c :: rest => leadsList needle (c :: rest) || containsList needle rest

/-- Python `needle in hay` for strings. -/
def strContains (hay needle : String) : Bool :=
  containsList needle.toList hay.toList

/-- Python's single-quote character, used when rendering `str(exc.args)`. -/
def pyQuote : String := String.singleton (Char.ofNat 39)

/-- Python's `str(exc.args)` for an exception carrying one string argument:
a one-element tuple rendered as `('msg',)`. -/
def pyStrOfArgs (msg : String) : String :=
  "(" ++ pyQuote ++ msg ++ pyQuote ++ ",)"

/-- Python `os.path.join` for a relative second component. -/
def pathJoin (a b : String) : String := a ++ "/" ++ b

/-- Drop leading whitespace characters. -/
def dropLeadWs : List Char → List Char
  | [] => []
  | c :: rest => if c.isWhitespace then dropLeadWs rest else c :: rest

/-- Python `str.strip()`: remove leading and trailing whitespace. -/
def pyStrip (s : String) : String :=
  String.mk (List.reverse (dropLeadWs (List.reverse (dropLeadWs s.toList))))

/-- Accumulate decimal digits; `none` (still at the start or on a non-digit)
means Python's `int()` would raise `ValueError`. -/
def digitsToNat : List Char → Option Nat → Option Nat
  | [], acc => acc
  | c :: rest, acc =>
      if c.isDigit then
        digitsToNat rest (some ((acc.getD 0) * 10 + (c.toNat - 48)))
      else none

/-- Python `int(s)` on an already-stripped string: an optional minus sign
followed by decimal digits, `none` when `int()` raises `ValueError`. -/
def pyInt (s : String) : Option Int :=
  match s.toList with
  | [] => none
  | c :: rest =>
      if c = Char.ofNat 45 then (digitsToNat rest none).map (fun n => -(n : Int))
      else (digitsToNat (c :: rest) none).map (fun n => (n : Int))

/-- Exceptions relevant to the grading flow: `subprocess.TimeoutExpired`,
`OSError` (spawn/file failures), and any other exception
(the spec's HarnessError). -/
inductive Exc where
  | timeoutExpired : Exc
  | osError : String → Exc
  | other : String → Exc
  deriving DecidableEq, Repr

/-- Modelled from the spec: `CommandRunner` (`src/tritongrader/runner.py` is
not in the source tree). Per the spec's Command Runner section it captures
stdout/stderr, records exit status and wall-clock duration, and backs the
captured output with temp files for later diffing. This record holds the
attribute values observable on the runner object after `run()`. -/
structure CommandRunner where
  stdout : String := ""
  stderr : String := ""
  exit_status : Int := 0
  running_time : ℚ := 0
  deriving DecidableEq, Repr

/-- Modelled from the spec: the observable behavior of one
`CommandRunner.run()` call (`src/tritongrader/runner.py` is not in the source
tree). Per the spec, a timeout "signals a Timeout outcome to the caller — this
must propagate" (caught by callers as `subprocess.TimeoutExpired`), and a
process that cannot be spawned "signals a distinct Crash outcome" (caught by
callers as `OSError`); `exc` is the exception `run()` raises, if any, and
`runner` the attribute state of the runner object afterwards. -/
structure RunBehavior where
  runner : CommandRunner
  exc : Option Exc := none
  deriving DecidableEq, Repr

/-- Modelled from the spec: check a captured stream against an expected-output
file byte-for-byte ("stdout equals expected stdout byte-for-byte ... exact
comparison, no normalization"); the method lives on the missing
`CommandRunner`. -/
def CommandRunner.check_stream (captured : String) (fs : String → Option String)
    (path : String) : Bool :=
  fs path == some captured

/-- `CommandRunner.check_stdout` applied through the filesystem model. -/
def CommandRunner.check_stdout (r : CommandRunner) (fs : String → Option String)
    (path : String) : Bool :=
  CommandRunner.check_stream r.stdout fs path

/-- `CommandRunner.check_stderr` applied through the filesystem model. -/
def CommandRunner.check_stderr (r : CommandRunner) (fs : String → Option String)
    (path : String) : Bool :=
  CommandRunner.check_stream r.stderr fs path

/-- `StaticAnalysisTestResult` (static_analysis_test_case.py, lines 11–17).
The `has_run`/`passed`/`score`/`timed_out`/`crash`/`error`/`running_time`
base fields are modelled from the spec's TestResult data model
(`src/tritongrader/test_case/test_case_base.py` is not in the source tree):
has_run false, passed unset, score 0, no timeout/crash/error until execution
touches them. -/
structure StaticAnalysisTestResult where
  has_run : Bool := false
  passed : Option Bool := none
  score : ℚ := 0
  timed_out : Bool := false
  crash : Option String := none
  error : Bool := false
  running_time : Option ℚ := none
  retcode : Option Int := none
  stderr : String := ""
  stdout : String := ""
  deriving DecidableEq, Repr

/-- The mutable state of a `StaticAnalysisTestCase` object touched by
`execute()`: its `result` and `runner` attributes. -/
structure SAState where
  result : StaticAnalysisTestResult := {}
  runner : Option CommandRunner := none
  deriving DecidableEq, Repr

/-- `HeaderCheckTestCase._evaluate` (static_analysis_test_case.py,
lines 101–104): raise (return `some` diagnostic) on the first prohibited
header whose `/usr/include/<h>` path occurs in the gcc output. The evaluator
protocol is `Callable[[str], None]` raising on failure, embedded as
`String → Option String` where `some msg` is the raised diagnostic. -/
def headerCheckEvaluate (prohibited : List String) (gcc_stdout : String) :
    Option String :=
  match prohibited.find? (fun h => strContains gcc_stdout ("/usr/include/" ++ h)) with
  | some h => some ("You have included " ++ h ++ ", which is not allowed for this assignment.")
  | none => none

/-- `StaticAnalysisTestCase.execute` together with `_execute`
(static_analysis_test_case.py, lines 51–81). `execute` replaces `self.result`
with a fresh result, runs `_execute`, and catches only
`subprocess.TimeoutExpired`; any other exception escapes, returned here as
`.error` carrying the exception and the object state at the moment it
escaped. Inside `_execute`: `has_run` is set, the runner is constructed and
run, a non-zero exit sets `passed := false` and `error := true`,
retcode/running_time/stderr are copied from the runner, and then the evaluator
is applied to `self.result.stdout` (which is still the initial empty string —
the runner's captured stdout is never copied into the result).

`saResultAfterRun` is the `self.result` state `_execute` has built just
before it invokes the evaluator: `has_run` set, the non-zero-exit flags, and
retcode/running_time/stderr copied from the runner. -/
def saResultAfterRun (rb : RunBehavior) : StaticAnalysisTestResult :=
  let r0 : StaticAnalysisTestResult := { has_run := true }
  let r1 := if rb.runner.exit_status ≠ 0
    then { r0 with passed := some false, error := true }
    else r0
  { r1 with
    retcode := some rb.runner.exit_status,
    running_time := some rb.runner.running_time,
    stderr := rb.runner.stderr }

/-- The remainder of `StaticAnalysisTestCase.execute`: with the
post-run result in hand, `_execute` applies the evaluator to
`self.result.stdout` and `execute` catches only `TimeoutExpired`. -/
def saExecute (evaluator : String → Option String) (rb : RunBehavior)
    (_s : SAState) : Except (Exc × SAState) SAState :=
  match rb.exc with
  | some Exc.timeoutExpired =>
      Except.ok { result := { has_run := true, timed_out := true },
                  runner := some rb.runner }
  | some e =>
      Except.error (e, { result := { has_run := true }, runner := some rb.runner })
  | none =>
      match evaluator (saResultAfterRun rb).stdout with
      | none =>
          Except.ok { result := { saResultAfterRun rb with
                        passed := some true, error := false },
                      runner := some rb.runner }
      | some diag =>
          Except.ok { result := { saResultAfterRun rb with
                        passed := some false, stderr := pyStrOfArgs diag },
                      runner := some rb.runner }

/-- Modelled from the spec: the parsed valgrind report produced by
`valparse.Parser` (`src/tritongrader/valparse/` is not in the source tree).
Per the spec's MemoryReport data model it is an ordered list of error records,
an ordered list of leak records, and an optional fatal-signal record; the
attribute and method names (`errs`, `leaks`, `signal`, `hasErrors`,
`hasLeaks`, `hasFatalSignal`) are those used by the in-tree callers. -/
structure ValgrindReport where
  errs : List String := []
  leaks : List String := []
  signal : Option String := none
  deriving DecidableEq, Repr

/-- `Parser.hasErrors` as used by `io_test_case.py` line 175. -/
def ValgrindReport.hasErrors (p : ValgrindReport) : Bool := !p.errs.isEmpty

/-- `Parser.hasLeaks` as used by `io_test_case.py` line 176. -/
def ValgrindReport.hasLeaks (p : ValgrindReport) : Bool := !p.leaks.isEmpty

/-- `Parser.hasFatalSignal` as used by `io_test_case.py` line 177. -/
def ValgrindReport.hasFatalSignal (p : ValgrindReport) : Bool := p.signal.isSome

/-- `IOTestResult` (io_test_case.py, lines 16–23), over the spec-modelled
base-result fields (see `StaticAnalysisTestResult`). -/
structure IOTestResult where
  has_run : Bool := false
  passed : Option Bool := none
  score : ℚ := 0
  timed_out : Bool := false
  crash : Option String := none
  error : Bool := false
  exit_status : Option Int := none
  stderr : String := ""
  stdout : String := ""
  valparse_out : Option ValgrindReport := none
  output_correct : Bool := false
  deriving DecidableEq, Repr

/-- The immutable configuration of an `IOTestCase`
(io_test_case.py, lines 27–62). -/
structure IOTestCase where
  command_path : String
  input_path : Option String
  exp_stdout_path : String
  exp_stderr_path : String
  exp_exit_status : Option Int
  name : String := "Test Case"
  point_value : ℚ
  point_value_correct_out : ℚ
  point_value_valgrind : ℚ
  timeout : ℚ
  hidden : Bool := false
  deriving DecidableEq, Repr

/-- `IOTestCase.__init__` (io_test_case.py, lines 27–62): the test's
`point_value` is `point_value + valgrind_point_value` (passed to the base
constructor), and `input_path` is kept only if the file exists
(`input_path if os.path.exists(input_path) else None`). -/
def mkIOTestCase (fs : String → Option String) (command_path input_path : String)
    (exp_stdout_path exp_stderr_path : String) (exp_exit_status : Option Int)
    (name : String) (point_value valgrind_point_value timeout : ℚ)
    (hidden : Bool) : IOTestCase :=
  { command_path := command_path
    input_path := if (fs input_path).isSome then some input_path else none
    exp_stdout_path := exp_stdout_path
    exp_stderr_path := exp_stderr_path
    exp_exit_status := exp_exit_status
    name := name
    point_value := point_value + valgrind_point_value
    point_value_correct_out := point_value
    point_value_valgrind := valgrind_point_value
    timeout := timeout
    hidden := hidden }

/-- The valgrind invocation prepended by `get_execute_command`
(io_test_case.py, line 119). -/
def valgrindCmd : String :=
  "valgrind --leak-check=full -s --track-origins=yes --xml=yes --xml-file=ValgrindResult.xml "

/-- `IOTestCase.get_execute_command` (io_test_case.py, lines 110–120): read
and strip the command file (raising `OSError` if it cannot be opened), append
an input redirection when an input path is configured, and prepend the
valgrind invocation when the valgrind point pool is positive. -/
def IOTestCase.get_execute_command (tc : IOTestCase)
    (fs : String → Option String) : Except Exc String :=
  match fs tc.command_path with
  | none => Except.error (Exc.osError ("No such file or directory: " ++ tc.command_path))
  | some content =>
      let exe := pyStrip content
      let exe := match tc.input_path with
        | some ip => exe ++ " < " ++ ip
        | none => exe
      let exe := if tc.point_value_valgrind > 0 then valgrindCmd ++ exe else exe
      Except.ok exe

/-- The mutable state of an `IOTestCase` object touched by `execute()`:
its `result` and `runner` attributes. -/
structure IOState where
  result : IOTestResult := {}
  runner : Option CommandRunner := none
  deriving DecidableEq, Repr

/-- The environment one `IOTestCase.execute()` call runs against: the
filesystem, the behavior of running the command, and the outcome of parsing
`ValgrindResult.xml` (`Except.error` when `valparse.Parser` raises). -/
structure IOEnv where
  fs : String → Option String
  rb : RunBehavior
  valReport : Except String ValgrindReport

/-- `IOTestCase.check_valgrind_result` (io_test_case.py, lines 172–181):
on a successful parse, store the report in `valparse_out` and return whether
it is clean; if the parser raises, set `error := true` and return `False`. -/
def check_valgrind_result (parse : Except String ValgrindReport)
    (res : IOTestResult) : IOTestResult × Bool :=
  match parse with
  | Except.ok p =>
      ({ res with valparse_out := some p },
       !(p.hasErrors || p.hasLeaks || p.hasFatalSignal))
  | Except.error _ => ({ res with error := true }, false)

/-- The exception handlers of `IOTestCase.execute` (io_test_case.py, lines
159–170): `TimeoutExpired` sets `timed_out`, `OSError` records the crash, and
the bare `except` sets `error`. -/
def ioExcHandler (r : IOTestResult) : Exc → IOTestResult
  | Exc.timeoutExpired => { r with timed_out := true }
  | Exc.osError m => { r with crash := some m }
  | Exc.other _ => { r with error := true }

/-- `IOTestCase.execute` (io_test_case.py, lines 122–170): reset the result,
set `has_run`, build the command (this can raise before `self.runner` is
reassigned), construct and run the runner, check stdout/stderr byte-for-byte
against the expected files, run the valgrind check only when the valgrind
point pool is nonzero, compare the exit status when one is expected, then set
`output_correct`, `passed = output_correct and valgrind_check`, and
`score = (base if output_correct) + (valgrind pool if passed)`. All three
exception classes are caught, so `execute` always returns. -/
def ioExecute (tc : IOTestCase) (env : IOEnv) (s : IOState) : IOState :=
  let r0 : IOTestResult := { has_run := true }
  match tc.get_execute_command env.fs with
  | Except.error e => { s with result := ioExcHandler r0 e }
  | Except.ok _ =>
      let runner := env.rb.runner
      match env.rb.exc with
      | some e => { result := ioExcHandler r0 e, runner := some runner }
      | none =>
          let stdout_check := runner.check_stdout env.fs tc.exp_stdout_path
          let stderr_check := runner.check_stderr env.fs tc.exp_stderr_path
          let checked := if tc.point_value_valgrind = 0 then (r0, true)
            else check_valgrind_result env.valReport r0
          let r1 := checked.1
          let valgrind_check := checked.2
          let status := match tc.exp_exit_status with
            | none => true
            | some es => es == runner.exit_status
          let output_correct := stdout_check && stderr_check && status
          let passed := output_correct && valgrind_check
          let score := (if output_correct then tc.point_value_correct_out else 0)
            + (if passed then tc.point_value_valgrind else 0)
          let r2 := { r1 with exit_status := some runner.exit_status,
                              output_correct := output_correct,
                              passed := some passed, score := score }
          { result := r2, runner := some runner }

/-- `IOTestCase.actual_stdout` (io_test_case.py, lines 88–92): raises when no
runner was ever initialized, otherwise reads the current runner's stdout. -/
def IOState.actual_stdout (s : IOState) : Except Exc String :=
  match s.runner with
  | none => Except.error (Exc.other "no runner initialized")
  | some r => Except.ok r.stdout

/-- `IOTestCase.actual_stderr` (io_test_case.py, lines 94–98). -/
def IOState.actual_stderr (s : IOState) : Except Exc String :=
  match s.runner with
  | none => Except.error (Exc.other "no runner initialized")
  | some r => Except.ok r.stderr

/-- `BasicTestResult` (basic_test_case.py, lines 11–16), over the
spec-modelled base-result fields (see `StaticAnalysisTestResult`). -/
structure BasicTestResult where
  has_run : Bool := false
  passed : Option Bool := none
  score : ℚ := 0
  timed_out : Bool := false
  crash : Option String := none
  error : Bool := false
  retcode : Option Int := none
  stderr : String := ""
  stdout : String := ""
  deriving DecidableEq, Repr

/-- The configuration of a `BasicTestCase` (basic_test_case.py, lines 24–48). -/
structure BasicTestCase where
  command : String
  expected_retcode : Int := 0
  name : String := "Test Case"
  point_value : ℚ := 1
  timeout : ℚ
  hidden : Bool := false
  deriving DecidableEq, Repr

/-- The mutable state of a `BasicTestCase` object. -/
structure BasicState where
  result : BasicTestResult := {}
  runner : Option CommandRunner := none
  deriving DecidableEq, Repr

/-- `BasicTestCase.execute` together with `_execute` (basic_test_case.py,
lines 50–77): reset the result, set `has_run`, construct and run the runner;
pass iff the exit status equals the expected retcode, scoring the full point
value or zero. `TimeoutExpired`, `OSError` and any other exception are all
caught (`timed_out` / `crash` / `error`), so `execute` always returns. -/
def basicExecute (tc : BasicTestCase) (rb : RunBehavior) (_s : BasicState) :
    BasicState :=
  let r0 : BasicTestResult := { has_run := true }
  match rb.exc with
  | some Exc.timeoutExpired =>
      { result := { r0 with timed_out := true }, runner := some rb.runner }
  | some (Exc.osError m) =>
      { result := { r0 with crash := some m }, runner := some rb.runner }
  | some (Exc.other _) =>
      { result := { r0 with error := true }, runner := some rb.runner }
  | none =>
      let passed := rb.runner.exit_status == tc.expected_retcode
      let r1 := { r0 with passed := some passed,
                          score := if passed then tc.point_value else 0 }
      { result := r1, runner := some rb.runner }

/-- Modelled from the spec: `CustomTestResult`
(`src/tritongrader/test_case/custom_test_case.py` is not in the source tree).
Per the spec a Custom test wraps a caller predicate performing a cheap local
check; its result carries the base fields plus a free-form `output`. -/
structure CustomTestResult where
  has_run : Bool := false
  passed : Option Bool := none
  score : ℚ := 0
  timed_out : Bool := false
  crash : Option String := none
  error : Bool := false
  output : String := ""
  deriving DecidableEq, Repr

/-- The configuration of a Custom test case (modelled from the spec; the
in-tree caller `autograder.py` constructs one with a name and point value). -/
structure CustomTestCase where
  name : String
  point_value : ℚ
  deriving DecidableEq, Repr

/-- Modelled from the spec: `CustomTestCase.execute`
(`src/tritongrader/test_case/custom_test_case.py` is not in the source tree).
The caller-supplied check either completes, setting `passed` and `output` on
the result (its outcome here is `Except.ok (passed, output)`), or raises,
which per the spec's error-handling design is isolated inside `execute` and
recorded as a harness error; scoring follows the spec's
`0 ≤ score ≤ point_value` convention with the full point value on a pass. -/
def customExecute (tc : CustomTestCase)
    (checkOutcome : Except String (Bool × String)) : CustomTestResult :=
  match checkOutcome with
  | Except.ok (p, out) =>
      { has_run := true, passed := some p, output := out,
        score := if p then tc.point_value else 0 }
  | Except.error _ => { has_run := true, error := true }

/-- The configuration of an `IOTestCaseBulkLoader`
(io_test_case.py, lines 184–218). The `*Pre` fields embed the loader's
filename-lead-in fields (`commands_` etc.). -/
structure IOTestCaseBulkLoader where
  commands_path : String
  test_input_path : String
  expected_stdout_path : String
  expected_stderr_path : String
  expected_exit_status_path : Option String
  commandsPre : String := "cmd-"
  testInputPre : String := "in-"
  expectedStdoutPre : String := "out-"
  expectedStderrPre : String := "err-"
  expectedExitStatusPre : Option String := some "status-"
  namePre : String := ""
  default_timeout : ℚ := 500
  deriving DecidableEq, Repr

/-- `IOTestCaseBulkLoader.add` (io_test_case.py, lines 220–272): build the
fixture paths from the shared test name; when both an expected-exit-status
path and its filename lead-in are configured, open that file (raising
`OSError` when it is absent) and parse its stripped contents as an int
(raising `ValueError` when unparseable), otherwise use no expected exit
status; then construct the `IOTestCase` (whose `__init__` drops a
non-existent stdin path). -/
def bulkAdd (L : IOTestCaseBulkLoader) (fs : String → Option String)
    (name : String) (point_value valgrind_point_value : ℚ) (hidden : Bool)
    (timeout : ℚ) : Except Exc IOTestCase :=
  let cmd := pathJoin L.commands_path (L.commandsPre ++ name)
  let stdin := pathJoin L.test_input_path (L.testInputPre ++ name)
  let stdout := pathJoin L.expected_stdout_path (L.expectedStdoutPre ++ name)
  let stderr := pathJoin L.expected_stderr_path (L.expectedStderrPre ++ name)
  let exitStatus : Except Exc (Option Int) :=
    match L.expected_exit_status_path, L.expectedExitStatusPre with
    | some p, some pre =>
        let file := pathJoin p (pre ++ name)
        match fs file with
        | none => Except.error (Exc.osError ("No such file or directory: " ++ file))
        | some content =>
            match pyInt (pyStrip content) with
            | some n => Except.ok (some n)
            | none => Except.error (Exc.other "ValueError")
    | _, _ => Except.ok none
  match exitStatus with
  | Except.error e => Except.error e
  | Except.ok es =>
      Except.ok (mkIOTestCase fs cmd stdin stdout stderr es
        (L.namePre ++ name) point_value valgrind_point_value timeout hidden)

/-- The common view of a test result used by the orchestrator loop and the
score aggregation: `has_run`, the tri-state `passed`, and `score`, shared by
every variant's result. -/
structure GradeRes where
  has_run : Bool := false
  passed : Option Bool := none
  score : ℚ := 0
  deriving DecidableEq, Repr

/-- The result view of a test case that was never executed: the fresh result
object its constructor installed. -/
def notRunRes : GradeRes := {}

/-- `Autograder._execute`'s test loop (autograder.py, lines 215–228). Each
list entry pairs "is this test one of the three designated gate test cases
(the loop's identity comparisons against `missing_files_check_test_case`,
`build_test_case`, `include_check_test_case`)" with the result its `execute()`
produces in this run's environment. The loop executes tests in order; after
executing a gate whose result is not a pass (Python's `not
test.result.passed`, true for both `False` and the unset `None`), it breaks,
leaving every later test with its fresh never-run result. -/
def runTests : List (Bool × GradeRes) → List GradeRes
  | [] => []
  | (g, r) :: rest =>
      if g = true ∧ r.passed ≠ some true then
        r :: rest.map (fun _ => notRunRes)
      else
        r :: runTests rest

/-- `GradescopeResultsFormatter.get_total_score` (formatter.py, lines
473–474): the sum of every test case's own result score. -/
def get_total_score (rs : List GradeRes) : ℚ :=
  (rs.map (fun r => r.score)).sum

/-- The `status` field computed by `GradescopeResultsFormatter.format_test`
(formatter.py, lines 467–468): present only when `passed` is set, `"passed"`
for `True` and `"failed"` for `False`. -/
def formatStatus (passed : Option Bool) : Option String :=
  match passed with
  | none => none
  | some b => some (if b then "passed" else "failed")

/-- The OS calls issued by the launcher module body (`wrappers/harness.py`):
adding a seccomp rule that makes `socket(family, ...)` return an errno,
loading the assembled filter, `os.setresuid`, `os.setresgid`, and the final
`os.execvp` transferring control to the target. -/
inductive HarnessStep where
  | addSocketDenyRule : Nat → Nat → HarnessStep
  | loadFilter : HarnessStep
  | setresuid : Nat → Nat → Nat → HarnessStep
  | setresgid : Nat → Nat → Nat → HarnessStep
  | execTarget : HarnessStep
  deriving DecidableEq, Repr

/-- `socket.AF_INET` on Linux. -/
def AF_INET : Nat := 2

/-- `socket.AF_INET6` on Linux. -/
def AF_INET6 : Nat := 10

/-- `errno.EACCES` on Linux. -/
def EACCES : Nat := 13

/-- The launcher's module body (`wrappers/harness.py`, lines 9–23), in
program order: build a default-allow seccomp filter with an
`ERRNO(EACCES)` rule on `socket` for arg0 = `AF_INET` and arg0 = `AF_INET6`,
load it, then `setresuid(1000, 1000, 1000)`, then `setresgid(1000, 1000,
1000)`, then `execvp` into the target. -/
def harnessProgram : List HarnessStep :=
  [ HarnessStep.addSocketDenyRule AF_INET EACCES,
    HarnessStep.addSocketDenyRule AF_INET6 EACCES,
    HarnessStep.loadFilter,
    HarnessStep.setresuid 1000 1000 1000,
    HarnessStep.setresgid 1000 1000 1000,
    HarnessStep.execTarget ]

/-- The process state the launcher manipulates: the real/effective/saved user
and group identity triples, the seccomp rules added but not yet loaded, the
loaded per-family socket denials, and whether control has transferred to the
target. -/
structure ProcState where
  ruid : Nat := 0
  euid : Nat := 0
  suid : Nat := 0
  rgid : Nat := 0
  egid : Nat := 0
  sgid : Nat := 0
  pendingRules : List (Nat × Nat) := []
  loadedRules : List (Nat × Nat) := []
  execed : Bool := false
  deriving DecidableEq, Repr

/-- Small-step semantics of the launcher's OS calls on the process state. -/
def stepHarness (s : ProcState) : HarnessStep → ProcState
  | HarnessStep.addSocketDenyRule fam err =>
      { s with pendingRules := s.pendingRules ++ [(fam, err)] }
  | HarnessStep.loadFilter =>
      { s with loadedRules := s.loadedRules ++ s.pendingRules, pendingRules := [] }
  | HarnessStep.setresuid r e sv => { s with ruid := r, euid := e, suid := sv }
  | HarnessStep.setresgid r e sv => { s with rgid := r, egid := e, sgid := sv }
  | HarnessStep.execTarget => { s with execed := true }

/-- Run a launcher step sequence from an initial state. -/
def runHarness (steps : List HarnessStep) (s : ProcState) : ProcState :=
  steps.foldl stepHarness s

/-- What a `socket(family, ...)` call returns under the loaded filter:
the configured errno for a denied family, success otherwise. -/
def socketCall (s : ProcState) (family : Nat) : Except Nat Unit :=
  match s.loadedRules.find? (fun r => r.1 == family) with
  | some r => Except.error r.2
  | none => Except.ok ()

/-- Does a step set user or group identities? -/
def setsIdentity : HarnessStep → Bool
  | HarnessStep.setresuid _ _ _ => true
  | HarnessStep.setresgid _ _ _ => true
  | _ => false

/-- A dependency listing as `gcc -M` prints it, containing a prohibited
header path. -/
def gccListing : String := "main.o: main.c /usr/include/stdio.h"

/-- The runner state of a banned-construct check whose dependency-listing
command succeeded and captured `gccListing`. -/
def gccRunOk : CommandRunner :=
  { stdout := gccListing, stderr := "", exit_status := 0, running_time := 5 }

/-- C1. The claim states that the banned-construct check passes the captured
stdout of the dependency-listing command to the evaluator and fails naming the
offending header. On the code this is false: `_execute` applies the evaluator
to `self.result.stdout`, which is never assigned from the runner and is still
the empty string, so with the prohibited header `stdio.h` present in the
captured listing the test nevertheless ends passed with no diagnostic — even
though the evaluator applied to the captured stdout would have produced the
diagnostic naming `stdio.h`. -/
theorem claim1_header_bug_behavior :
    saExecute (headerCheckEvaluate ["stdio.h"]) { runner := gccRunOk, exc := none } {} =
      Except.ok { result := { has_run := true, passed := some true, error := false,
                              retcode := some 0, running_time := some 5,
                              stderr := "", stdout := "" },
                  runner := some gccRunOk } ∧
    headerCheckEvaluate ["stdio.h"] gccRunOk.stdout =
      some "You have included stdio.h, which is not allowed for this assignment." := by
  exact ⟨rfl, rfl⟩

/-- The runner state of a static-analysis command that itself failed
(non-zero exit status). -/
def gccRunFail : CommandRunner :=
  { stdout := "", stderr := "gcc: error: no input files", exit_status := 2,
    running_time := 3 }

/-- C3. The claim states that when the analysis command exits non-zero the
final result is marked errored. On the code this is false: `_execute` does set
`error := true` on a non-zero exit, but then unconditionally runs the
evaluator on `self.result.stdout` (the empty string) and, when it does not
raise, overwrites the flags with `passed := true, error := false`; the shown
final state of a header check whose gcc exited with status 2 is passed and
not errored. -/
theorem claim3_nonzero_exit_behavior :
    saExecute (headerCheckEvaluate ["stdio.h"]) { runner := gccRunFail, exc := none } {} =
      Except.ok { result := { has_run := true, passed := some true, error := false,
                              retcode := some 2, running_time := some 3,
                              stderr := "gcc: error: no input files", stdout := "" },
                  runner := some gccRunFail } := by
  exact rfl

/-- C2 counterexample. The claim asserts that the user and group identities
are set first and the syscall filter installed afterwards; in
`harnessProgram` the filter load is step 2 and the first identity-setting
call is step 3, so no identity-setting step precedes the filter load. -/
theorem claim2_counterexample :
    harnessProgram.get? 2 = some HarnessStep.loadFilter ∧
    harnessProgram.get? 3 = some (HarnessStep.setresuid 1000 1000 1000) ∧
    ¬ (∀ i j : Nat, harnessProgram.get? i = some HarnessStep.loadFilter →
        (harnessProgram.get? j).any setsIdentity = true → j < i) := by
  refine ⟨rfl, rfl, fun h => ?_⟩
  have h23 := h 2 3 rfl (by decide)
  omega

/-- C2 amended. Before control transfers to the target, the launcher installs
a syscall filter under which socket creation for the IPv4 and IPv6 address
families returns `EACCES`, and **then** sets the process's real, effective and
saved user and group identities to the fixed unprivileged account
(uid = gid = 1000): the state inherited at `execvp` has all six identities at
1000 and both families denied, with the filter load preceding both identity
drops in program order. -/
theorem claim2_amended :
    (runHarness harnessProgram {}).execed = true ∧
    (runHarness harnessProgram {}).ruid = 1000 ∧
    (runHarness harnessProgram {}).euid = 1000 ∧
    (runHarness harnessProgram {}).suid = 1000 ∧
    (runHarness harnessProgram {}).rgid = 1000 ∧
    (runHarness harnessProgram {}).egid = 1000 ∧
    (runHarness harnessProgram {}).sgid = 1000 ∧
    socketCall (runHarness harnessProgram {}) AF_INET = Except.error EACCES ∧
    socketCall (runHarness harnessProgram {}) AF_INET6 = Except.error EACCES ∧
    harnessProgram.get? 2 = some HarnessStep.loadFilter ∧
    harnessProgram.get? 3 = some (HarnessStep.setresuid 1000 1000 1000) ∧
    harnessProgram.get? 4 = some (HarnessStep.setresgid 1000 1000 1000) ∧
    harnessProgram.get? 5 = some HarnessStep.execTarget ∧
    harnessProgram.length = 6 := by
  refine ⟨rfl, rfl, rfl, rfl, rfl, rfl, rfl, rfl, rfl, rfl, rfl, rfl, rfl, rfl⟩

/-- C4 counterexample. The claim asserts that a Crash raised inside
`execute()` is caught there for every variant; for the StaticAnalysis variant
this is false: `StaticAnalysisTestCase.execute` catches only
`TimeoutExpired`, so a spawn failure (`OSError`) escapes `execute()`
(returned as `.error`), with nothing recorded on the result. -/
theorem claim4_counterexample :
    saExecute (headerCheckEvaluate ["stdio.h"])
        { runner := {}, exc := some (Exc.osError "Exec format error") } {} =
      Except.error (Exc.osError "Exec format error",
        { result := { has_run := true }, runner := some ({} : CommandRunner) }) := by
  exact rfl

/-- C4 amended. A Crash (`OSError`) or HarnessError (any other exception)
raised inside one test case's `execute()` is caught there and recorded in its
own result for the Basic, IO and Custom variants — but not for the
StaticAnalysis variant, whose `execute()` catches only `TimeoutExpired`, so
that there a Crash escapes `execute()` (and, since the orchestrator loop
wraps `test.execute()` in no handler, would abort the sibling tests). -/
theorem claim4_amended :
    (∀ (tc : BasicTestCase) (rb : RunBehavior) (s : BasicState) (m : String),
        rb.exc = some (Exc.osError m) →
        (basicExecute tc rb s).result.crash = some m ∧
        (basicExecute tc rb s).result.has_run = true) ∧
    (∀ (tc : BasicTestCase) (rb : RunBehavior) (s : BasicState) (m : String),
        rb.exc = some (Exc.other m) →
        (basicExecute tc rb s).result.error = true) ∧
    (∀ (tc : IOTestCase) (env : IOEnv) (s : IOState) (m c : String),
        tc.get_execute_command env.fs = Except.ok c →
        env.rb.exc = some (Exc.osError m) →
        (ioExecute tc env s).result.crash = some m) ∧
    (∀ (tc : IOTestCase) (env : IOEnv) (s : IOState) (m c : String),
        tc.get_execute_command env.fs = Except.ok c →
        env.rb.exc = some (Exc.other m) →
        (ioExecute tc env s).result.error = true) ∧
    (∀ (tc : CustomTestCase) (m : String),
        (customExecute tc (Except.error m)).error = true ∧
        (customExecute tc (Except.error m)).has_run = true) ∧
    (∀ (ev : String → Option String) (rb : RunBehavior) (s : SAState) (m : String),
        rb.exc = some (Exc.osError m) →
        saExecute ev rb s =
          Except.error (Exc.osError m,
            { result := { has_run := true }, runner := some rb.runner })) := by
  refine ⟨?_, ?_, ?_, ?_, ?_, ?_⟩
  · intro tc rb s m h
    simp [basicExecute, h]
  · intro tc rb s m h
    simp [basicExecute, h]
  · intro tc env s m c hc h
    simp [ioExecute, hc, h, ioExcHandler]
  · intro tc env s m c hc h
    simp [ioExecute, hc, h, ioExcHandler]
  · intro tc m
    exact ⟨rfl, rfl⟩
  · intro ev rb s m h
    simp [saExecute, h]

/-- A concrete IO test case whose command file exists in `fsC4`. -/
def tcC4 : IOTestCase :=
  { command_path := "cmd", input_path := none, exp_stdout_path := "exp/out",
    exp_stderr_path := "exp/err", exp_exit_status := none, point_value := 1,
    point_value_correct_out := 1, point_value_valgrind := 0, timeout := 1 }

/-- A filesystem holding just the command file of `tcC4`. -/
def fsC4 : String → Option String :=
  fun p => if p = "cmd" then some "./prog" else none

/-- A run behavior whose `run()` raises `OSError` (spawn failure / Crash). -/
def rbCrash : RunBehavior := { runner := {}, exc := some (Exc.osError "boom") }

/-- A run behavior whose `run()` raises an unanticipated exception
(the spec's HarnessError). -/
def rbHarnessErr : RunBehavior := { runner := {}, exc := some (Exc.other "bad report") }

/-- A concrete basic test case. -/
def tcBasicC4 : BasicTestCase := { command := "make", timeout := 3 }

/-- The IO environment of `tcC4` when `run()` crashes. -/
def envC4crash : IOEnv :=
  { fs := fsC4, rb := rbCrash, valReport := Except.error "no xml" }

/-- The IO environment of `tcC4` when `run()` raises a harness error. -/
def envC4err : IOEnv :=
  { fs := fsC4, rb := rbHarnessErr, valReport := Except.error "no xml" }

/-- Witness for the amended C4 at concrete inputs: a Basic crash and harness
error are recorded, an IO crash and harness error are recorded, a Custom check
failure is recorded, and a StaticAnalysis crash escapes. -/
theorem claim4_amended_witness :
    (rbCrash.exc = some (Exc.osError "boom") ∧
      (basicExecute tcBasicC4 rbCrash {}).result.crash = some "boom") ∧
    ((basicExecute tcBasicC4 rbHarnessErr {}).result.error = true) ∧
    (tcC4.get_execute_command fsC4 = Except.ok "./prog" ∧
      (ioExecute tcC4 envC4crash {}).result.crash = some "boom") ∧
    ((ioExecute tcC4 envC4err {}).result.error = true) ∧
    ((customExecute { name := "Missing Files Check", point_value := 0 }
        (Except.error "boom")).error = true) ∧
    (saExecute (headerCheckEvaluate ["stdio.h"]) rbCrash {} =
      Except.error (Exc.osError "boom",
        { result := { has_run := true }, runner := some ({} : CommandRunner) })) := by
  refine ⟨⟨rfl, ?_⟩, ?_, ⟨rfl, ?_⟩, ?_, ?_, ?_⟩
  · exact (claim4_amended.1 tcBasicC4 rbCrash {} "boom" rfl).1
  · exact claim4_amended.2.1 tcBasicC4 rbHarnessErr {} "bad report" rfl
  · exact claim4_amended.2.2.1 tcC4 envC4crash {} "boom" "./prog" rfl rfl
  · exact claim4_amended.2.2.2.1 tcC4 envC4err {} "bad report" "./prog" rfl rfl
  · exact (claim4_amended.2.2.2.2.1 { name := "Missing Files Check", point_value := 0 }
      "boom").1
  · exact claim4_amended.2.2.2.2.2 (headerCheckEvaluate ["stdio.h"]) rbCrash {} "boom" rfl

/-- The scores of never-run results sum to zero. -/
theorem sum_scores_notRun (post : List (Bool × GradeRes)) :
    (((post.map (fun _ => notRunRes)).map (fun r => r.score)).sum : ℚ) = 0 := by
  induction post with
  | nil => rfl
  | cons a t ih => simp [notRunRes, ih]

/-- The gating loop up to a failing gate: with every earlier gate passing, the
loop keeps each earlier result, records the failing gate's own result, and
leaves every later test with its fresh never-run result. -/
theorem runTests_gate (pre post : List (Bool × GradeRes)) (g : GradeRes)
    (hpre : ∀ p ∈ pre, p.1 = true → p.2.passed = some true)
    (hg : g.passed ≠ some true) :
    runTests (pre ++ (true, g) :: post) =
      pre.map Prod.snd ++ g :: post.map (fun _ => notRunRes) := by
  induction pre with
  | nil =>
      simp [runTests, hg]
  | cons p t ih =>
      obtain ⟨b, r⟩ := p
      have hcond : ¬ (b = true ∧ r.passed ≠ some true) := by
        rintro ⟨h1, h2⟩
        exact h2 (hpre (b, r) (List.mem_cons_self _ _) h1)
      simp only [List.cons_append, runTests, List.map_cons]
      rw [if_neg hcond]
      exact congrArg (r :: ·) (ih fun q hq hq1 => hpre q (List.mem_cons_of_mem _ hq) hq1)

/-- C5. In a run in which a gating test produces a non-passing verdict (and
every earlier gate passed), the orchestrator loop executes no later test:
every later test keeps its fresh never-run result (`has_run = false`), results
produced before the failing gate are retained unchanged, and the aggregate
score — the sum of every test case's own result score — equals the sum of the
retained results plus the failing gate's score, the not-run tests contributing
zero. -/
theorem claim5_gating (pre post : List (Bool × GradeRes)) (g : GradeRes)
    (hpre : ∀ p ∈ pre, p.1 = true → p.2.passed = some true)
    (hg : g.passed ≠ some true) :
    runTests (pre ++ (true, g) :: post) =
      pre.map Prod.snd ++ g :: post.map (fun _ => notRunRes) ∧
    (∀ r ∈ post.map (fun _ => notRunRes), r.has_run = false ∧ r.score = 0) ∧
    get_total_score (runTests (pre ++ (true, g) :: post)) =
      get_total_score (pre.map Prod.snd) + g.score := by
  have h1 := runTests_gate pre post g hpre hg
  refine ⟨h1, ?_, ?_⟩
  · intro r hr
    simp only [List.mem_map] at hr
    obtain ⟨_, _, rfl⟩ := hr
    exact ⟨rfl, rfl⟩
  · rw [h1]
    simp only [get_total_score, List.map_append, List.sum_append, List.map_cons,
      List.sum_cons, sum_scores_notRun post, add_zero]

/-- A gate result that passed. -/
def gatePassRes : GradeRes := { has_run := true, passed := some true, score := 0 }

/-- An ordinary test result worth 3 points. -/
def okRes3 : GradeRes := { has_run := true, passed := some true, score := 3 }

/-- A failing gate result. -/
def gateFailRes : GradeRes := { has_run := true, passed := some false, score := 0 }

/-- The result a later test would have produced had it run. -/
def wouldPassRes5 : GradeRes := { has_run := true, passed := some true, score := 5 }

/-- Witness for C5 at a concrete run: a passing gate and a 3-point test come
before a failing gate; the later 5-point test stays not-run and the aggregate
score is 3. -/
theorem claim5_gating_witness :
    (∀ p ∈ [(true, gatePassRes), (false, okRes3)], p.1 = true →
        p.2.passed = some true) ∧
    gateFailRes.passed ≠ some true ∧
    (runTests ([(true, gatePassRes), (false, okRes3)] ++
        (true, gateFailRes) :: [(false, wouldPassRes5)]) =
      [(true, gatePassRes), (false, okRes3)].map Prod.snd ++
        gateFailRes :: [(false, wouldPassRes5)].map (fun _ => notRunRes) ∧
      (∀ r ∈ [(false, wouldPassRes5)].map (fun _ => notRunRes),
        r.has_run = false ∧ r.score = 0) ∧
      get_total_score (runTests ([(true, gatePassRes), (false, okRes3)] ++
          (true, gateFailRes) :: [(false, wouldPassRes5)])) =
        get_total_score ([(true, gatePassRes), (false, okRes3)].map Prod.snd) +
          gateFailRes.score) := by
  refine ⟨by decide, by decide, ?_⟩
  exact claim5_gating [(true, gatePassRes), (false, okRes3)]
    [(false, wouldPassRes5)] gateFailRes (by decide) (by decide)

/-- C6. For an IO test with base pool `b` and memory-analysis bonus pool
`v > 0` whose command ran, whose stdout/stderr checks pass, whose configured
exit-status check passes, and whose valgrind report parses: the output is
correct, the score always includes the full base pool `b`, and the bonus `v`
is added exactly when the parsed report is memory-clean (no error records, no
leak records, no fatal signal), which is also exactly when the test is marked
passed. -/
theorem claim6_valgrind_bonus (tc : IOTestCase) (env : IOEnv) (s : IOState)
    (b v : ℚ) (rep : ValgrindReport) (c : String)
    (hb : tc.point_value_correct_out = b)
    (hv : tc.point_value_valgrind = v)
    (hvpos : 0 < v)
    (hcmd : tc.get_execute_command env.fs = Except.ok c)
    (hout : env.rb.runner.check_stdout env.fs tc.exp_stdout_path = true)
    (herr : env.rb.runner.check_stderr env.fs tc.exp_stderr_path = true)
    (hstatus : (match tc.exp_exit_status with
      | none => true
      | some es => es == env.rb.runner.exit_status) = true)
    (hexc : env.rb.exc = none)
    (hrep : env.valReport = Except.ok rep) :
    (ioExecute tc env s).result.output_correct = true ∧
    (ioExecute tc env s).result.passed =
      some (!(rep.hasErrors || rep.hasLeaks || rep.hasFatalSignal)) ∧
    (ioExecute tc env s).result.score =
      b + (if !(rep.hasErrors || rep.hasLeaks || rep.hasFatalSignal) then v else 0) := by
  have hvne : v ≠ 0 := ne_of_gt hvpos
  by_cases hclean : (!(rep.hasErrors || rep.hasLeaks || rep.hasFatalSignal)) = true
  · simp [ioExecute, hcmd, hexc, check_valgrind_result, hrep, hb, hv, hvne,
      hout, herr, hstatus, hclean]
  · have hclean2 : (!(rep.hasErrors || rep.hasLeaks || rep.hasFatalSignal)) = false := by
      simpa using hclean
    simp [ioExecute, hcmd, hexc, check_valgrind_result, hrep, hb, hv, hvne,
      hout, herr, hstatus, hclean2]

/-- The parsed valgrind report of the concrete C6 witness: one leak record,
no error records, no fatal signal. -/
def repLeak : ValgrindReport :=
  { errs := [], leaks := ["4 bytes in 1 blocks are definitely lost"], signal := none }

/-- The IO test case of the concrete C6 witness: base pool 2, bonus pool 1. -/
def tcC6 : IOTestCase :=
  { command_path := "cmd", input_path := none, exp_stdout_path := "exp/out",
    exp_stderr_path := "exp/err", exp_exit_status := some 0, point_value := 3,
    point_value_correct_out := 2, point_value_valgrind := 1, timeout := 1 }

/-- The filesystem of the concrete C6 witness: the command file and the
expected-output fixtures matching the captured output exactly. -/
def fsC6 : String → Option String :=
  fun p => if p = "cmd" then some "./prog"
    else if p = "exp/out" then some "hello"
    else if p = "exp/err" then some "" else none

/-- The run of the concrete C6 witness: correct stdout/stderr, exit 0. -/
def runC6 : CommandRunner :=
  { stdout := "hello", stderr := "", exit_status := 0, running_time := 7 }

/-- The environment of the concrete C6 witness. -/
def envC6 : IOEnv :=
  { fs := fsC6, rb := { runner := runC6, exc := none },
    valReport := Except.ok repLeak }

/-- Witness for C6 at the spec's concrete instance: base 2, bonus 1, correct
output, a report with one leak record and zero errors — the run is not
memory-clean, the test is not passed, and the score is exactly 2 (bonus
withheld, base kept). -/
theorem claim6_valgrind_bonus_witness :
    tcC6.point_value_correct_out = 2 ∧
    tcC6.point_value_valgrind = 1 ∧
    (0:ℚ) < 1 ∧
    tcC6.get_execute_command fsC6 =
      Except.ok "valgrind --leak-check=full -s --track-origins=yes --xml=yes --xml-file=ValgrindResult.xml ./prog" ∧
    (!(repLeak.hasErrors || repLeak.hasLeaks || repLeak.hasFatalSignal)) = false ∧
    (ioExecute tcC6 envC6 {}).result.output_correct = true ∧
    (ioExecute tcC6 envC6 {}).result.passed = some false ∧
    (ioExecute tcC6 envC6 {}).result.score = 2 := by
  have h := claim6_valgrind_bonus tcC6 envC6 {} 2 1 repLeak
    "valgrind --leak-check=full -s --track-origins=yes --xml=yes --xml-file=ValgrindResult.xml ./prog"
    rfl rfl (by norm_num) rfl rfl rfl rfl rfl rfl
  refine ⟨rfl, rfl, by norm_num, rfl, rfl, h.1, ?_, ?_⟩
  · rw [h.2.1]; rfl
  · rw [h.2.2]; norm_num [repLeak, ValgrindReport.hasLeaks]

/-- C10. When `IOTestCase.execute()` fails before a new `CommandRunner` is
constructed — the command file cannot be opened, so `get_execute_command`
raises `OSError` — the final result is a fresh object with the crash recorded
(and `has_run = true`), but the test case's `runner` attribute still refers to
the previous execution's runner, so `actual_stdout` and `actual_stderr`
return the previous run's captured output. -/
theorem claim10_stale_runner (tc : IOTestCase) (env : IOEnv) (s : IOState)
    (h : env.fs tc.command_path = none) :
    (ioExecute tc env s).result =
      { has_run := true,
        crash := some ("No such file or directory: " ++ tc.command_path) } ∧
    (ioExecute tc env s).runner = s.runner ∧
    (ioExecute tc env s).actual_stdout = s.actual_stdout ∧
    (ioExecute tc env s).actual_stderr = s.actual_stderr := by
  have hcmd : tc.get_execute_command env.fs =
      Except.error (Exc.osError ("No such file or directory: " ++ tc.command_path)) := by
    simp [IOTestCase.get_execute_command, h]
  refine ⟨?_, ?_, ?_, ?_⟩ <;>
    simp [ioExecute, hcmd, ioExcHandler, IOState.actual_stdout, IOState.actual_stderr]

/-- The previous run's state for the C10 witness: a runner holding the
previous execution's captured output. -/
def staleState : IOState :=
  { result := { has_run := true, passed := some true, score := 1 },
    runner := some { stdout := "old out", stderr := "old err", exit_status := 0 } }

/-- The environment of the C10 witness: the command file is gone. -/
def envC10 : IOEnv :=
  { fs := fun _ => none, rb := { runner := {} }, valReport := Except.error "no xml" }

/-- Witness for C10 at a concrete re-execution whose command file is missing:
the crash is recorded on a fresh result, yet `actual_stdout`/`actual_stderr`
still return the previous run's captured output. -/
theorem claim10_stale_runner_witness :
    envC10.fs tcC4.command_path = none ∧
    (ioExecute tcC4 envC10 staleState).result =
      { has_run := true, crash := some "No such file or directory: cmd" } ∧
    (ioExecute tcC4 envC10 staleState).actual_stdout = Except.ok "old out" ∧
    (ioExecute tcC4 envC10 staleState).actual_stderr = Except.ok "old err" := by
  have h := claim10_stale_runner tcC4 envC10 staleState rfl
  exact ⟨rfl, h.1, by rw [h.2.2.1]; rfl, by rw [h.2.2.2]; rfl⟩

/-- The bulk loader of the C7 counterexample, configured (as
`Autograder.io_tests_bulk_loader` always configures it) with an
expected-exit-status directory and the default `status-` filename lead-in. -/
def loaderC7 : IOTestCaseBulkLoader :=
  { commands_path := "tests/in", test_input_path := "tests/in",
    expected_stdout_path := "tests/exp", expected_stderr_path := "tests/exp",
    expected_exit_status_path := some "tests/exp" }

/-- The filesystem of the C7 counterexample: every fixture of test `t1`
except the expected-exit-status file. -/
def fsC7 : String → Option String :=
  fun p => if p = "tests/in/cmd-t1" then some "./prog"
    else if p = "tests/in/in-t1" then some "1 2"
    else if p = "tests/exp/out-t1" then some "3"
    else if p = "tests/exp/err-t1" then some "" else none

/-- C7 counterexample. The claim asserts that a missing expected-exit-status
fixture never makes the loader's `add()` fail; but when the loader is
configured with an expected-exit-status path (as the autograder's
`io_tests_bulk_loader` always does), `add()` opens the file unconditionally
and a missing file raises `OSError` — no test case is created. -/
theorem claim7_counterexample :
    bulkAdd loaderC7 fsC7 "t1" 1 0 false 1 =
      Except.error (Exc.osError "No such file or directory: tests/exp/status-t1") := by
  exact rfl

/-- C7 amended. The stdin fixture is genuinely optional: whenever `add()`
creates a test case and the stdin fixture is absent, the case is created with
`input_path = None`, and its execute command is exactly the stripped command
file with no stdin redirection (shown here for a test without the valgrind
wrapper). The expected-exit-status fixture is optional only at the loader
level: when the loader's expected-exit-status path is `None`, `add()`
succeeds and the case has no expected-exit-status requirement; when it is
configured, the file must exist (see the counterexample). -/
theorem claim7_amended :
    (∀ (L : IOTestCaseBulkLoader) (fs : String → Option String)
        (name : String) (pv vv t : ℚ) (hid : Bool),
        L.expected_exit_status_path = none →
        ∃ tc, bulkAdd L fs name pv vv hid t = Except.ok tc ∧
          tc.exp_exit_status = none) ∧
    (∀ (L : IOTestCaseBulkLoader) (fs : String → Option String)
        (name : String) (pv vv t : ℚ) (hid : Bool) (tc : IOTestCase),
        bulkAdd L fs name pv vv hid t = Except.ok tc →
        fs (pathJoin L.test_input_path (L.testInputPre ++ name)) = none →
        tc.input_path = none) ∧
    (∀ (tc : IOTestCase) (fs : String → Option String) (content : String),
        tc.input_path = none →
        fs tc.command_path = some content →
        ¬ tc.point_value_valgrind > 0 →
        tc.get_execute_command fs = Except.ok (pyStrip content)) := by
  refine ⟨?_, ?_, ?_⟩
  · intro L fs name pv vv t hid h
    refine ⟨mkIOTestCase fs (pathJoin L.commands_path (L.commandsPre ++ name))
      (pathJoin L.test_input_path (L.testInputPre ++ name))
      (pathJoin L.expected_stdout_path (L.expectedStdoutPre ++ name))
      (pathJoin L.expected_stderr_path (L.expectedStderrPre ++ name))
      none (L.namePre ++ name) pv vv t hid, ?_, rfl⟩
    simp [bulkAdd, h]
  · intro L fs name pv vv t hid tc hok hstdin
    simp only [bulkAdd] at hok
    split at hok
    · exact absurd hok (by simp)
    · simp only [Except.ok.injEq] at hok
      subst hok
      simp [mkIOTestCase, hstdin]
  · intro tc fs content hip hcmd hvg
    simp [IOTestCase.get_execute_command, hcmd, hip, hvg]

/-- The loader of the C7 witness: no expected-exit-status directory
configured. -/
def loaderC7b : IOTestCaseBulkLoader :=
  { commands_path := "tests/in", test_input_path := "tests/in",
    expected_stdout_path := "tests/exp", expected_stderr_path := "tests/exp",
    expected_exit_status_path := none }

/-- The filesystem of the C7 witness: command and expected-output fixtures
exist, the stdin fixture and the expected-exit-status fixture do not. -/
def fsC7b : String → Option String :=
  fun p => if p = "tests/in/cmd-t1" then some " ./prog  "
    else if p = "tests/exp/out-t1" then some "3"
    else if p = "tests/exp/err-t1" then some "" else none

/-- The test case the C7 witness's `add()` call creates. -/
def tcC7b : IOTestCase :=
  mkIOTestCase fsC7b "tests/in/cmd-t1" "tests/in/in-t1" "tests/exp/out-t1"
    "tests/exp/err-t1" none "t1" 1 0 1 false

/-- Witness for the amended C7: with no expected-exit-status path configured
and the stdin fixture absent, `add()` succeeds, the created case has no
expected exit status and no stdin path, and its execute command is the
stripped command file with no redirection. -/
theorem claim7_amended_witness :
    loaderC7b.expected_exit_status_path = none ∧
    fsC7b (pathJoin loaderC7b.test_input_path (loaderC7b.testInputPre ++ "t1")) = none ∧
    (∃ tc, bulkAdd loaderC7b fsC7b "t1" 1 0 false 1 = Except.ok tc ∧
      tc.exp_exit_status = none ∧ tc.input_path = none ∧
      tc.get_execute_command fsC7b = Except.ok "./prog") := by
  obtain ⟨tc, hok, hes⟩ :=
    claim7_amended.1 loaderC7b fsC7b "t1" 1 0 1 false rfl
  have hip : tc.input_path = none :=
    claim7_amended.2.1 loaderC7b fsC7b "t1" 1 0 1 false tc hok rfl
  have heq : bulkAdd loaderC7b fsC7b "t1" 1 0 false 1 = Except.ok tcC7b := rfl
  have htc : tcC7b = tc := by
    have h2 := heq.symm.trans hok
    injection h2 with h3
  subst htc
  have hvg : ¬ tcC7b.point_value_valgrind > 0 := by
    simp [tcC7b, mkIOTestCase]
  have hgc := claim7_amended.2.2 tcC7b fsC7b " ./prog  " hip rfl hvg
  have hps : pyStrip " ./prog  " = "./prog" := by decide
  rw [hps] at hgc
  exact ⟨rfl, rfl, tcC7b, hok, hes, hip, hgc⟩

/-- C8. A run whose command exceeds the configured timeout (its `run()`
raises `TimeoutExpired`): for the Basic and IO variants `execute()` returns
normally with `timed_out = true`, a score of zero and `passed` still unset —
so the formatted status field is absent, in particular neither `"passed"` nor
`"failed"`; for the StaticAnalysis variant `execute()` likewise catches the
timeout and returns normally with the same flags. -/
theorem claim8_timeout :
    (∀ (tc : BasicTestCase) (rb : RunBehavior) (s : BasicState),
        rb.exc = some Exc.timeoutExpired →
        (basicExecute tc rb s).result.timed_out = true ∧
        (basicExecute tc rb s).result.score = 0 ∧
        (basicExecute tc rb s).result.passed = none ∧
        formatStatus (basicExecute tc rb s).result.passed = none) ∧
    (∀ (tc : IOTestCase) (env : IOEnv) (s : IOState) (c : String),
        tc.get_execute_command env.fs = Except.ok c →
        env.rb.exc = some Exc.timeoutExpired →
        (ioExecute tc env s).result.timed_out = true ∧
        (ioExecute tc env s).result.score = 0 ∧
        (ioExecute tc env s).result.passed = none ∧
        formatStatus (ioExecute tc env s).result.passed = none) ∧
    (∀ (ev : String → Option String) (rb : RunBehavior) (s : SAState),
        rb.exc = some Exc.timeoutExpired →
        ∃ st, saExecute ev rb s = Except.ok st ∧
          st.result.timed_out = true ∧ st.result.score = 0 ∧
          st.result.passed = none) := by
  refine ⟨?_, ?_, ?_⟩
  · intro tc rb s h
    simp [basicExecute, h, formatStatus]
  · intro tc env s c hc h
    simp [ioExecute, hc, h, ioExcHandler, formatStatus]
  · intro ev rb s h
    refine ⟨{ result := { has_run := true, timed_out := true }, runner := some rb.runner }, ?_, rfl, rfl, rfl⟩
    simp [saExecute, h]

/-- The run behavior of a command killed by the timeout, with partially
captured output on the runner. -/
def rbTimeout : RunBehavior :=
  { runner := { stdout := "partial out" }, exc := some Exc.timeoutExpired }

/-- The IO environment of the C8 witness. -/
def envC8 : IOEnv :=
  { fs := fsC4, rb := rbTimeout, valReport := Except.error "no xml" }

/-- Witness for C8 at concrete timed-out runs of all three spawning
variants. -/
theorem claim8_timeout_witness :
    rbTimeout.exc = some Exc.timeoutExpired ∧
    ((basicExecute tcBasicC4 rbTimeout {}).result.timed_out = true ∧
      (basicExecute tcBasicC4 rbTimeout {}).result.score = 0 ∧
      formatStatus (basicExecute tcBasicC4 rbTimeout {}).result.passed = none) ∧
    (tcC4.get_execute_command fsC4 = Except.ok "./prog" ∧
      (ioExecute tcC4 envC8 {}).result.timed_out = true ∧
      (ioExecute tcC4 envC8 {}).result.score = 0 ∧
      formatStatus (ioExecute tcC4 envC8 {}).result.passed = none) ∧
    (∃ st, saExecute (headerCheckEvaluate ["stdio.h"]) rbTimeout {} = Except.ok st ∧
      st.result.timed_out = true ∧ st.result.score = 0 ∧ st.result.passed = none) := by
  have hb := claim8_timeout.1 tcBasicC4 rbTimeout {} rfl
  have hio := claim8_timeout.2.1 tcC4 envC8 {} "./prog" rfl rfl
  have hsa := claim8_timeout.2.2 (headerCheckEvaluate ["stdio.h"]) rbTimeout {} rfl
  exact ⟨rfl, ⟨hb.1, hb.2.1, hb.2.2.2⟩, ⟨rfl, hio.1, hio.2.1, hio.2.2.2⟩, hsa⟩

/-- The post-run static-analysis result keeps score zero. -/
theorem saResultAfterRun_score (rb : RunBehavior) :
    (saResultAfterRun rb).score = 0 := by
  simp only [saResultAfterRun]
  split <;> rfl

/-- `IOTestCase.execute`'s exception handlers never touch the score. -/
theorem ioExcHandler_score (r : IOTestResult) (e : Exc) :
    (ioExcHandler r e).score = r.score := by
  cases e <;> rfl

/-- An `if P then x else 0` term is bounded by `0` and `x`. -/
theorem ite_zero_bounds (P : Prop) [Decidable P] (x : ℚ) (hx : 0 ≤ x) :
    0 ≤ (if P then x else 0) ∧ (if P then x else 0) ≤ x := by
  split
  · exact ⟨hx, le_refl x⟩
  · exact ⟨le_refl 0, hx⟩

/-- A static-analysis `execute` never touches the score: whenever it returns
normally the result's score is still zero. -/
theorem saExecute_score (ev : String → Option String) (rb : RunBehavior)
    (s : SAState) (st : SAState) (h : saExecute ev rb s = Except.ok st) :
    st.result.score = 0 := by
  unfold saExecute at h
  split at h
  · cases h; rfl
  · cases h
  · split at h
    · cases h
      exact saResultAfterRun_score rb
    · cases h
      exact saResultAfterRun_score rb

/-- C9. With nonnegative configured point pools, every variant's execution
yields a score between 0 and the test's point value: Basic scores 0 or the
full value; IO (whose point value is the base pool plus the memory-analysis
bonus pool) scores 0, the base pool, or both pools; StaticAnalysis never sets
a score; Custom scores 0 or the full value. -/
theorem claim9_score_bounds :
    (∀ (tc : BasicTestCase) (rb : RunBehavior) (s : BasicState),
        0 ≤ tc.point_value →
        0 ≤ (basicExecute tc rb s).result.score ∧
        (basicExecute tc rb s).result.score ≤ tc.point_value) ∧
    (∀ (tc : IOTestCase) (env : IOEnv) (s : IOState),
        0 ≤ tc.point_value_correct_out →
        0 ≤ tc.point_value_valgrind →
        tc.point_value = tc.point_value_correct_out + tc.point_value_valgrind →
        0 ≤ (ioExecute tc env s).result.score ∧
        (ioExecute tc env s).result.score ≤ tc.point_value) ∧
    (∀ (ev : String → Option String) (rb : RunBehavior) (s st : SAState) (pv : ℚ),
        0 ≤ pv → saExecute ev rb s = Except.ok st →
        0 ≤ st.result.score ∧ st.result.score ≤ pv) ∧
    (∀ (tc : CustomTestCase) (out : Except String (Bool × String)),
        0 ≤ tc.point_value →
        0 ≤ (customExecute tc out).score ∧
        (customExecute tc out).score ≤ tc.point_value) := by
  refine ⟨?_, ?_, ?_, ?_⟩
  · intro tc rb s hpv
    obtain ⟨run, exc⟩ := rb
    rcases exc with _ | e
    · dsimp only [basicExecute]
      split
      · exact ⟨hpv, le_refl _⟩
      · exact ⟨le_refl 0, hpv⟩
    · cases e <;> exact ⟨le_refl 0, hpv⟩
  · intro tc env s h1 h2 hsum
    obtain ⟨fs, rb, vrep⟩ := env
    obtain ⟨run, exc⟩ := rb
    rcases hcmd : tc.get_execute_command fs with e | c
    · have hs : (ioExecute tc ⟨fs, ⟨run, exc⟩, vrep⟩ s).result.score = 0 := by
        simp [ioExecute, hcmd, ioExcHandler_score]
      rw [hs, hsum]
      exact ⟨le_refl 0, by linarith⟩
    · rcases exc with _ | e
      · simp only [ioExecute, hcmd]
        rw [hsum]
        constructor
        · exact add_nonneg (ite_zero_bounds _ _ h1).1 (ite_zero_bounds _ _ h2).1
        · exact add_le_add (ite_zero_bounds _ _ h1).2 (ite_zero_bounds _ _ h2).2
      · have hs : (ioExecute tc ⟨fs, ⟨run, some e⟩, vrep⟩ s).result.score = 0 := by
          simp [ioExecute, hcmd, ioExcHandler_score]
        rw [hs, hsum]
        exact ⟨le_refl 0, by linarith⟩
  · intro ev rb s st pv hpv h
    rw [saExecute_score ev rb s st h]
    exact ⟨le_refl 0, hpv⟩
  · intro tc out hpv
    rcases out with m | po
    · exact ⟨le_refl 0, hpv⟩
    · obtain ⟨p, o⟩ := po
      constructor
      · dsimp only [customExecute]
        split
        · exact hpv
        · exact le_refl 0
      · dsimp only [customExecute]
        split
        · exact le_refl _
        · exact hpv

/-- Witness for C9 at concrete runs of all four variants: a passing basic
test (score 1 of 1), the C6 leaky IO run (score 2 of 3), a static-analysis
run (score 0), and a passing custom check (score 0 of 0). -/
theorem claim9_score_bounds_witness :
    ((0:ℚ) ≤ ({ command := "make", timeout := 3 } : BasicTestCase).point_value ∧
      0 ≤ (basicExecute { command := "make", timeout := 3 } { runner := {} } {}).result.score ∧
      (basicExecute { command := "make", timeout := 3 } { runner := {} } {}).result.score ≤
        ({ command := "make", timeout := 3 } : BasicTestCase).point_value) ∧
    ((0:ℚ) ≤ tcC6.point_value_correct_out ∧ (0:ℚ) ≤ tcC6.point_value_valgrind ∧
      tcC6.point_value = tcC6.point_value_correct_out + tcC6.point_value_valgrind ∧
      0 ≤ (ioExecute tcC6 envC6 {}).result.score ∧
      (ioExecute tcC6 envC6 {}).result.score ≤ tcC6.point_value) ∧
    (saExecute (headerCheckEvaluate ["stdio.h"]) { runner := gccRunOk } {} =
        Except.ok { result := { has_run := true, passed := some true, error := false,
                                retcode := some 0, running_time := some 5,
                                stderr := "", stdout := "" },
                    runner := some gccRunOk } ∧
      (0:ℚ) ≤ 0 ∧
      (0:ℚ) ≤ ({ result := { has_run := true, passed := some true, error := false,
                             retcode := some 0, running_time := some 5,
                             stderr := "", stdout := "" },
                 runner := some gccRunOk } : SAState).result.score ∧
      ({ result := { has_run := true, passed := some true, error := false,
                     retcode := some 0, running_time := some 5,
                     stderr := "", stdout := "" },
         runner := some gccRunOk } : SAState).result.score ≤ 0) ∧
    ((0:ℚ) ≤ ({ name := "Missing Files Check", point_value := 0 } : CustomTestCase).point_value ∧
      0 ≤ (customExecute { name := "Missing Files Check", point_value := 0 }
        (Except.ok (true, "All required files have been located."))).score ∧
      (customExecute { name := "Missing Files Check", point_value := 0 }
        (Except.ok (true, "All required files have been located."))).score ≤
        ({ name := "Missing Files Check", point_value := 0 } : CustomTestCase).point_value) := by
  have hb := claim9_score_bounds.1 { command := "make", timeout := 3 }
    { runner := {} } {} (by norm_num)
  have hio := claim9_score_bounds.2.1 tcC6 envC6 {} (by norm_num [tcC6])
    (by norm_num [tcC6]) (by norm_num [tcC6])
  have hsa := claim9_score_bounds.2.2.1 (headerCheckEvaluate ["stdio.h"])
    { runner := gccRunOk } {}
    { result := { has_run := true, passed := some true, error := false,
                  retcode := some 0, running_time := some 5,
                  stderr := "", stdout := "" },
      runner := some gccRunOk } 0 (le_refl 0) rfl
  have hc := claim9_score_bounds.2.2.2 { name := "Missing Files Check", point_value := 0 }
    (Except.ok (true, "All required files have been located.")) (le_refl 0)
  exact ⟨⟨by norm_num, hb.1, hb.2⟩, ⟨by norm_num [tcC6], by norm_num [tcC6],
    by norm_num [tcC6], hio.1, hio.2⟩, ⟨rfl, le_refl 0, hsa.1, hsa.2⟩,
    ⟨le_refl 0, hc.1, hc.2⟩⟩

end Tritongrader
